import Mathlib

/-!
Verification development for the floating recording control surface of the
hyprnote repository (routes `/app/control`, two iterations of the component).

The definitions below are a shallow embedding of the TypeScript source:
geometry is modelled over `Rat` (JavaScript numbers are exact on the
additions, subtractions, halvings, `Math.min`/`Math.max` comparisons that
this code performs on screen-scale values), React `useState` cells become
fields of an explicit state record, and each event handler becomes a pure
state transformer (returning, where relevant, the external commands or
actions it issues).
-/

namespace Control

/-- Window label under which the control surface registers its overlay
region with the windowing plugin. -/
def controlWindowLabel : String :=
  "control"

/-- Prefix of the timestamp-derived session identifiers generated by the
start-from-inactive path of `toggleRecording`. -/
def sessionIdBase : String :=
  "control-session-"

/-- Recording status enum cached from the listener plugin:
inactive, running active or running paused. -/
inductive RecordingStatus
  | inactive
  | running_active
  | running_paused
  deriving DecidableEq, Repr

/-- Screen position `{x, y}` of the control surface top-left corner. -/
structure Position where
  x : Rat
  y : Rat
  deriving DecidableEq, Repr

/-- The React state cells of the control component that the recording and
audio handlers read and write: `recordingStatus`, `recordingLoading`,
`micMuted`, `speakerMuted`, and the tracked `position`. -/
structure ControlState where
  recordingStatus : RecordingStatus
  recordingLoading : Bool
  micMuted : Bool
  speakerMuted : Bool
  position : Position
  deriving DecidableEq, Repr

/-- Commands of the external listener subsystem that the component can
issue (`@hypr/plugin-listener`). -/
inductive ListenerCommand
  | startSession (id : String)
  | stopSession
  | pauseSession
  | resumeSession
  | setMicMuted (value : Bool)
  | setSpeakerMuted (value : Bool)
  deriving DecidableEq, Repr

/-- Payload of the listener plugin `sessionEvent` push stream: a status
change, a mute-change notification, or some other event type the handler
ignores. -/
inductive SessionEventPayload
  | statusEvt (st : RecordingStatus)
  | micMutedEvt (value : Bool)
  | speakerMutedEvt (value : Bool)
  | otherEvt
  deriving DecidableEq, Repr

/-- The `sessionEvent.listen` handler: on a status payload it overwrites
`recordingStatus` with the pushed value and clears `recordingLoading`; on a
`micMuted`/`speakerMuted` payload it overwrites the corresponding flag;
anything else is ignored. -/
def onSessionEvent (p : SessionEventPayload) (s : ControlState) : ControlState :=
  match p with
  | .statusEvt st => { s with recordingStatus := st, recordingLoading := false }
  | .micMutedEvt v => { s with micMuted := v }
  | .speakerMutedEvt v => { s with speakerMuted := v }
  | .otherEvt => s

/-- The synchronous prefix of `toggleRecording`, up to the point where the
`await` suspends: sets `recordingLoading` to true and picks the listener
command from the current cached status (`stopSession` when running active,
`resumeSession` when running paused, `startSession` with a
timestamp-derived id when inactive). It does not write `recordingStatus`. -/
def toggleRecordingDispatch (now : Nat) (s : ControlState) :
    ControlState × Option ListenerCommand :=
  let loaded := { s with recordingLoading := true }
  if s.recordingStatus ≠ RecordingStatus.inactive then
    if s.recordingStatus = RecordingStatus.running_active then
      (loaded, some ListenerCommand.stopSession)
    else if s.recordingStatus = RecordingStatus.running_paused then
      (loaded, some ListenerCommand.resumeSession)
    else (loaded, none)
  else
    (loaded, some (ListenerCommand.startSession (sessionIdBase ++ toString now)))

/-- The synchronous prefix of `pauseRecording`: sets `recordingLoading` to
true and issues `pauseSession` only when the cached status is running
active. It does not write `recordingStatus`. -/
def pauseRecordingDispatch (s : ControlState) : ControlState × Option ListenerCommand :=
  ({ s with recordingLoading := true },
   if s.recordingStatus = RecordingStatus.running_active then
     some ListenerCommand.pauseSession
   else none)

/-- The continuation run when the in-flight `toggleRecording` or
`pauseRecording` command settles (resolves or rejects): the `catch` branch
only logs, and the `finally` branch clears `recordingLoading`. No other
state cell is written on either path. -/
def commandSettled (s : ControlState) : ControlState :=
  { s with recordingLoading := false }

/-- Full run of `toggleRecording` when its awaited listener command
rejects: the dispatch prefix followed by the logged `catch` and the
`finally` clearing of the loading flag. -/
def toggleRecordingFailed (now : Nat) (s : ControlState) : ControlState :=
  commandSettled (toggleRecordingDispatch now s).1

/-- Full run of `pauseRecording` when `pauseSession()` rejects: the
dispatch prefix followed by the logged `catch` and the `finally` clearing
of the loading flag. -/
def pauseRecordingFailed (s : ControlState) : ControlState :=
  commandSettled (pauseRecordingDispatch s).1

/-- Full run of `toggleMic` when the awaited `setMicMuted` command
rejects: the rejection jumps to the `catch` (which only logs) before the
local `setMicMuted(newMuted)` write and before the broadcast `emit`, so
the state is left untouched; the handler never touches `recordingLoading`. -/
def toggleMicFailed (s : ControlState) : ControlState :=
  s

/-- Full run of `toggleSpeaker` when the awaited `setSpeakerMuted` command
rejects: as for the microphone, the `catch` is reached before the local
write and the broadcast, so the state is left untouched. -/
def toggleSpeakerFailed (s : ControlState) : ControlState :=
  s

/-- The `IconButton` click handler: it stops propagation and invokes the
wired action only when the button is not disabled. -/
def iconButtonClick (disabled : Bool)
    (action : ControlState → ControlState × Option ListenerCommand)
    (s : ControlState) : ControlState × Option ListenerCommand :=
  if disabled then (s, none) else action s

/-- Click on the stop/start button, wired with `onClick={toggleRecording}`
and `disabled={recordingLoading}`. -/
def stopStartButtonClick (now : Nat) (s : ControlState) :
    ControlState × Option ListenerCommand :=
  iconButtonClick s.recordingLoading (toggleRecordingDispatch now) s

/-- Click on the pause/resume button, wired with
`onClick={isRecordingActive ? pauseRecording : toggleRecording}` and
`disabled={recordingLoading}`. -/
def pauseResumeButtonClick (now : Nat) (s : ControlState) :
    ControlState × Option ListenerCommand :=
  iconButtonClick s.recordingLoading
    (fun st =>
      if st.recordingStatus = RecordingStatus.running_active then
        pauseRecordingDispatch st
      else
        toggleRecordingDispatch now st)
    s

/-- Rectangle `{x, y, width, height}` as passed to
`windowsCommands.setFakeWindowBounds`. -/
structure Rect where
  x : Rat
  y : Rat
  width : Rat
  height : Rat
  deriving DecidableEq, Repr

/-- Rectangle containment: `inner` lies inside `outer` (edges included). -/
def rectContains (outer inner : Rect) : Prop :=
  outer.x ≤ inner.x ∧ outer.y ≤ inner.y ∧
  inner.x + inner.width ≤ outer.x + outer.width ∧
  inner.y + inner.height ≤ outer.y + outer.height

instance (outer inner : Rect) : Decidable (rectContains outer inner) := by
  unfold rectContains; infer_instance

/-- The popover anchor rule of the `SettingsPopup` component: `isNearTop`
is `position.y < 250`, and the popup top is `position.y + 60` when near the
top (open below the control bar) and `position.y - 200` otherwise (open
above). -/
def settingsPopupTop (position : Position) : Rat :=
  if position.y < 250 then position.y + 60 else position.y - 200

/-- The popup-position recomputation inside `updateOverlayBounds`, kept as
a separate definition because the source repeats the anchor rule there:
`popupTop = isNearTop ? position.y + 60 : position.y - 200`. -/
def overlayPopupTop (position : Position) : Rat :=
  if position.y < 250 then position.y + 60 else position.y - 200

/-- The popover rectangle used by `updateOverlayBounds`: left edge at
`position.x`, top at the anchor rule, width `256` (`w-64`), height `200`. -/
def popupRect (position : Position) : Rect :=
  { x := position.x, y := overlayPopupTop position, width := 256, height := 200 }

/-- The control-surface rectangle: the tracked position with the measured
toolbar size. -/
def toolbarRectAt (position : Position) (toolbarWidth toolbarHeight : Rat) : Rect :=
  { x := position.x, y := position.y, width := toolbarWidth, height := toolbarHeight }

/-- Min/max bounding-box union of two rectangles. -/
def unionRect (r1 r2 : Rect) : Rect :=
  let minX := min r1.x r2.x
  let minY := min r1.y r2.y
  let maxX := max (r1.x + r1.width) (r2.x + r2.width)
  let maxY := max (r1.y + r1.height) (r2.y + r2.height)
  { x := minX, y := minY, width := maxX - minX, height := maxY - minY }

/-- The geometry computed by `updateOverlayBounds` from the tracked
position, the measured toolbar rectangle and whether the settings popup is
open: the toolbar rectangle alone when the popup is closed, and otherwise
the combined bounding box `minX = min(position.x, popupLeft)`,
`minY = min(position.y, popupTop)`,
`maxX = max(position.x + toolbarWidth, popupLeft + popupWidth)`,
`maxY = max(position.y + toolbarHeight, popupTop + popupHeight)` with
`popupLeft = position.x`, `popupWidth = 256`, `popupHeight = 200`. -/
def updateOverlayBoundsRect (position : Position) (toolbarWidth toolbarHeight : Rat)
    (showSettings : Bool) : Rect :=
  if showSettings then
    let isNearTop := position.y < 250
    let popupTop := if isNearTop then position.y + 60 else position.y - 200
    let popupLeft := position.x
    let popupWidth : Rat := 256
    let popupHeight : Rat := 200
    let minX := min position.x popupLeft
    let minY := min position.y popupTop
    let maxX := max (position.x + toolbarWidth) (popupLeft + popupWidth)
    let maxY := max (position.y + toolbarHeight) (popupTop + popupHeight)
    { x := minX, y := minY, width := maxX - minX, height := maxY - minY }
  else
    { x := position.x, y := position.y, width := toolbarWidth, height := toolbarHeight }

/-- The drag-handler position update (`handleMouseMove`): when the
always-current `isDraggingRef` is set, clamp
`clientX - dragOffset.x` to `[0, window.innerWidth - toolbarWidth]` and
`clientY - dragOffset.y` to `[0, window.innerHeight - toolbarHeight]`
(`Math.max(0, Math.min(bound, value))`); when not dragging the handler
returns without producing a position. -/
def handleMouseMove (isDragging : Bool) (screenWidth screenHeight : Rat)
    (toolbarWidth toolbarHeight : Rat) (dragOffset : Position)
    (clientX clientY : Rat) (position : Position) : Position :=
  if isDragging then
    { x := max 0 (min (screenWidth - toolbarWidth) (clientX - dragOffset.x)),
      y := max 0 (min (screenHeight - toolbarHeight) (clientY - dragOffset.y)) }
  else
    position

/-- The sequence of positions published by successive `mousemove` events
while a drag is in progress (each one fed the position left by its
predecessor). -/
def dragTrace (screenWidth screenHeight toolbarWidth toolbarHeight : Rat)
    (dragOffset : Position) (position : Position) :
    List (Rat × Rat) → List Position
  | [] => []
  | e :: es =>
    let p := handleMouseMove true screenWidth screenHeight toolbarWidth toolbarHeight
      dragOffset e.1 e.2 position
    p :: dragTrace screenWidth screenHeight toolbarWidth toolbarHeight dragOffset p es

/-- Actions the recovery supervisor can issue toward the host windowing
layer. -/
inductive RecoveryAction
  | removeFakeWindow (label : String)
  | delayedBoundsUpdate (delayMs : Nat)
  | boundsUpdate
  deriving DecidableEq, Repr

/-- The `smartRecovery` routine: if `Date.now() - lastInteractionRef` is
above `10000` ms, unregister the fake window and schedule a bounds
republish `100` ms later; otherwise just republish bounds. In both
branches `trackInteraction()` refreshes the last-interaction timestamp to
`now`. Returns the issued actions in order and the refreshed timestamp. -/
def smartRecovery (now lastInteraction : Int) : List RecoveryAction × Int :=
  let timeSinceInteraction := now - lastInteraction
  if timeSinceInteraction > 10000 then
    ([RecoveryAction.removeFakeWindow controlWindowLabel,
      RecoveryAction.delayedBoundsUpdate 100],
     now)
  else
    ([RecoveryAction.boundsUpdate], now)

/-- The `focus` listener (`handleWindowFocus`): it runs `smartRecovery`. -/
def handleWindowFocus (now lastInteraction : Int) : List RecoveryAction × Int :=
  smartRecovery now lastInteraction

/-- The `visibilitychange` listener (`handleVisibilityChange`): it runs
`smartRecovery` only when the document became visible again. -/
def handleVisibilityChange (documentHidden : Bool) (now lastInteraction : Int) :
    List RecoveryAction × Int :=
  if documentHidden then ([], lastInteraction) else smartRecovery now lastInteraction

/-- What `localStorage.getItem` plus `JSON.parse` yields for the persisted
position key: nothing stored, a stored string that does not parse to a
numeric `{x, y}` (either `JSON.parse` throws and the `catch` logs, or the
parsed value fails the numeric comparisons), or a parsed position. -/
inductive SavedPosition
  | absent
  | notAPosition
  | stored (x y : Rat)
  deriving DecidableEq, Repr

/-- Fallback position of the mount initializer:
`((windowWidth - 200) / 2, (windowHeight - 200) / 2)`. -/
def defaultPosition (windowWidth windowHeight : Rat) : Position :=
  { x := (windowWidth - 200) / 2, y := (windowHeight - 200) / 2 }

/-- The `useState` position initializer: use the saved position only when
it parsed and satisfies `parsed.x >= 0 && parsed.x <= windowWidth - 200 &&
parsed.y >= 0 && parsed.y <= windowHeight - 100`; otherwise fall back to
the default centered position. The `try`/`catch` around `JSON.parse` makes
the initializer total: every input produces a position. -/
def initPosition (windowWidth windowHeight : Rat) (saved : SavedPosition) : Position :=
  match saved with
  | .stored px py =>
    if 0 ≤ px ∧ px ≤ windowWidth - 200 ∧ 0 ≤ py ∧ py ≤ windowHeight - 100 then
      { x := px, y := py }
    else
      defaultPosition windowWidth windowHeight
  | .absent => defaultPosition windowWidth windowHeight
  | .notAPosition => defaultPosition windowWidth windowHeight

/-- The mic broadcast listener (`audio-mic-state-changed`): a total
overwrite of `micMuted` with the payload value. -/
def applyMicBroadcast (muted : Bool) (s : ControlState) : ControlState :=
  { s with micMuted := muted }

/-- The speaker broadcast listener (`audio-speaker-state-changed`): a
total overwrite of `speakerMuted` with the payload value. -/
def applySpeakerBroadcast (muted : Bool) (s : ControlState) : ControlState :=
  { s with speakerMuted := muted }

/-- Clamping `Math.max(0, Math.min(bound, v))` lands in `[0, bound]` when
the bound is nonnegative. -/
lemma clamp_mem_bounds (bound v : Rat) (h : 0 ≤ bound) :
    0 ≤ max 0 (min bound v) ∧ max 0 (min bound v) ≤ bound :=
  ⟨le_max_left 0 _, max_le h (min_le_left _ _)⟩

/-- Every position in a drag trace respects the clamping bounds, provided
the toolbar fits on the screen. -/
lemma dragTrace_mem_bounds (screenWidth screenHeight toolbarWidth toolbarHeight : Rat)
    (dragOffset : Position) (hW : toolbarWidth ≤ screenWidth)
    (hH : toolbarHeight ≤ screenHeight) :
    ∀ (events : List (Rat × Rat)) (position : Position),
      ∀ p ∈ dragTrace screenWidth screenHeight toolbarWidth toolbarHeight
          dragOffset position events,
        0 ≤ p.x ∧ p.x ≤ screenWidth - toolbarWidth ∧
        0 ≤ p.y ∧ p.y ≤ screenHeight - toolbarHeight := by
  intro events
  induction events with
  | nil => intro position p hp; simp [dragTrace] at hp
  | cons e es ih =>
    intro position p hp
    rw [dragTrace, List.mem_cons] at hp
    rcases hp with hp | hp
    · subst hp
      have hx := clamp_mem_bounds (screenWidth - toolbarWidth)
        (e.1 - dragOffset.x) (sub_nonneg.mpr hW)
      have hy := clamp_mem_bounds (screenHeight - toolbarHeight)
        (e.2 - dragOffset.y) (sub_nonneg.mpr hH)
      exact ⟨hx.1, hx.2, hy.1, hy.2⟩
    · exact ih _ p hp

/-- The min/max bounding box of two rectangles contains the first one. -/
lemma unionRect_contains_left (r1 r2 : Rect) : rectContains (unionRect r1 r2) r1 := by
  unfold rectContains unionRect
  refine ⟨min_le_left _ _, min_le_left _ _, ?_, ?_⟩
  · have h : min r1.x r2.x + (max (r1.x + r1.width) (r2.x + r2.width) - min r1.x r2.x)
        = max (r1.x + r1.width) (r2.x + r2.width) := by ring
    simp [h]
  · have h : min r1.y r2.y + (max (r1.y + r1.height) (r2.y + r2.height) - min r1.y r2.y)
        = max (r1.y + r1.height) (r2.y + r2.height) := by ring
    simp [h]

/-- The min/max bounding box of two rectangles contains the second one. -/
lemma unionRect_contains_right (r1 r2 : Rect) : rectContains (unionRect r1 r2) r2 := by
  unfold rectContains unionRect
  refine ⟨min_le_right _ _, min_le_right _ _, ?_, ?_⟩
  · have h : min r1.x r2.x + (max (r1.x + r1.width) (r2.x + r2.width) - min r1.x r2.x)
        = max (r1.x + r1.width) (r2.x + r2.width) := by ring
    simp [h]
  · have h : min r1.y r2.y + (max (r1.y + r1.height) (r2.y + r2.height) - min r1.y r2.y)
        = max (r1.y + r1.height) (r2.y + r2.height) := by ring
    simp [h]

/-- Claim C1: for either order of (a) the locally issued recording
transition command settling and (b) the corresponding externally pushed
session event arriving, once both have been processed the cached status
equals the value carried by the pushed event and the loading flag is
false; the event handler applies the pushed status unconditionally on
arrival, and the command settling never overwrites the status. -/
theorem sessionStateConverges (now : Nat) (s : ControlState) (v : RecordingStatus) :
    ((commandSettled (onSessionEvent (SessionEventPayload.statusEvt v)
        (toggleRecordingDispatch now s).1)).recordingStatus = v ∧
     (commandSettled (onSessionEvent (SessionEventPayload.statusEvt v)
        (toggleRecordingDispatch now s).1)).recordingLoading = false) ∧
    ((onSessionEvent (SessionEventPayload.statusEvt v)
        (commandSettled (toggleRecordingDispatch now s).1)).recordingStatus = v ∧
     (onSessionEvent (SessionEventPayload.statusEvt v)
        (commandSettled (toggleRecordingDispatch now s).1)).recordingLoading = false) ∧
    (∀ t : ControlState,
      (onSessionEvent (SessionEventPayload.statusEvt v) t).recordingStatus = v) ∧
    (∀ t : ControlState, (commandSettled t).recordingStatus = t.recordingStatus) := by
  refine ⟨⟨rfl, rfl⟩, ⟨rfl, rfl⟩, fun t => rfl, fun t => rfl⟩

/-- Claim C2 counterexample: dispatching start from the inactive state
leaves the cached status at inactive; no optimistic running-active value
is written before the external event arrives. -/
theorem dispatchOptimism_counterexample :
    (toggleRecordingDispatch 0
      { recordingStatus := RecordingStatus.inactive, recordingLoading := false,
        micMuted := false, speakerMuted := false,
        position := { x := 0, y := 0 } }).1.recordingStatus
      = RecordingStatus.inactive ∧
    ¬ ((toggleRecordingDispatch 0
      { recordingStatus := RecordingStatus.inactive, recordingLoading := false,
        micMuted := false, speakerMuted := false,
        position := { x := 0, y := 0 } }).1.recordingStatus
      = RecordingStatus.running_active) := by
  exact ⟨rfl, by decide⟩

/-- Claim C2 (amended): immediately after a user-triggered transition
command is dispatched and before any external event or command resolution
is processed, the loading flag is true, the cached status is unchanged
from its pre-dispatch value (no optimistic update is applied), and the
issued external command matches the transition table. -/
theorem dispatchKeepsStatusAndSetsLoading (now : Nat) (s : ControlState) :
    ((toggleRecordingDispatch now s).1.recordingLoading = true ∧
     (toggleRecordingDispatch now s).1.recordingStatus = s.recordingStatus) ∧
    ((pauseRecordingDispatch s).1.recordingLoading = true ∧
     (pauseRecordingDispatch s).1.recordingStatus = s.recordingStatus) ∧
    (s.recordingStatus = RecordingStatus.inactive →
      (toggleRecordingDispatch now s).2 =
        some (ListenerCommand.startSession (sessionIdBase ++ toString now))) ∧
    (s.recordingStatus = RecordingStatus.running_active →
      (toggleRecordingDispatch now s).2 = some ListenerCommand.stopSession) ∧
    (s.recordingStatus = RecordingStatus.running_paused →
      (toggleRecordingDispatch now s).2 = some ListenerCommand.resumeSession) ∧
    (s.recordingStatus = RecordingStatus.running_active →
      (pauseRecordingDispatch s).2 = some ListenerCommand.pauseSession) := by
  unfold toggleRecordingDispatch pauseRecordingDispatch
  cases h : s.recordingStatus <;> simp [h]

/-- Concrete instance of the amended claim C2: dispatching start at time 5
from an inactive state issues the timestamp-derived start command. -/
theorem dispatchKeepsStatusAndSetsLoading_witness :
    ({ recordingStatus := RecordingStatus.inactive, recordingLoading := false,
       micMuted := false, speakerMuted := false,
       position := { x := 0, y := 0 } } : ControlState).recordingStatus
      = RecordingStatus.inactive ∧
    (toggleRecordingDispatch 5
      { recordingStatus := RecordingStatus.inactive, recordingLoading := false,
        micMuted := false, speakerMuted := false,
        position := { x := 0, y := 0 } }).2 =
      some (ListenerCommand.startSession (sessionIdBase ++ toString 5)) :=
  ⟨rfl, (dispatchKeepsStatusAndSetsLoading 5
    { recordingStatus := RecordingStatus.inactive, recordingLoading := false,
      micMuted := false, speakerMuted := false,
      position := { x := 0, y := 0 } }).2.2.1 rfl⟩

/-- Claim C3: while dragging, every position produced by the drag handler
is clamped into the rectangle in which the control surface stays fully on
screen, and in particular dragging the 200 by 60 surface from (100, 100)
(pointer grabbed at its corner) to pointer (5000, 5000) on a 1920 by 1080
screen yields position (1720, 1020). -/
theorem dragClampInvariant (screenWidth screenHeight toolbarWidth toolbarHeight : Rat)
    (dragOffset position : Position) (events : List (Rat × Rat))
    (hW : toolbarWidth ≤ screenWidth) (hH : toolbarHeight ≤ screenHeight) :
    (∀ p ∈ dragTrace screenWidth screenHeight toolbarWidth toolbarHeight
        dragOffset position events,
      0 ≤ p.x ∧ p.x ≤ screenWidth - toolbarWidth ∧
      0 ≤ p.y ∧ p.y ≤ screenHeight - toolbarHeight) ∧
    handleMouseMove true 1920 1080 200 60 { x := 0, y := 0 } 5000 5000
        { x := 100, y := 100 } = { x := 1720, y := 1020 } := by
  refine ⟨dragTrace_mem_bounds screenWidth screenHeight toolbarWidth toolbarHeight
    dragOffset hW hH events position, ?_⟩
  simp [handleMouseMove]
  norm_num

/-- Concrete instance of claim C3: the 200 by 60 toolbar fits on the 1920
by 1080 screen, and the scenario drag clamps to (1720, 1020). -/
theorem dragClampInvariant_witness :
    (200 : Rat) ≤ 1920 ∧ (60 : Rat) ≤ 1080 ∧
    handleMouseMove true 1920 1080 200 60 { x := 0, y := 0 } 5000 5000
        { x := 100, y := 100 } = { x := 1720, y := 1020 } :=
  ⟨by norm_num, by norm_num,
    (dragClampInvariant 1920 1080 200 60 { x := 0, y := 0 } { x := 100, y := 100 } []
      (by norm_num) (by norm_num)).2⟩

/-- Claim C4: while the loading flag is true, a click on either recording
transition control is ignored entirely: the state is unchanged and no
listener command is issued, so at most one transition command is ever in
flight. -/
theorem loadingGuardBlocksSecondDispatch (now : Nat) (s : ControlState)
    (h : s.recordingLoading = true) :
    stopStartButtonClick now s = (s, none) ∧
    pauseResumeButtonClick now s = (s, none) := by
  unfold stopStartButtonClick pauseResumeButtonClick iconButtonClick
  simp [h]

/-- Concrete instance of claim C4: with a start command in flight from the
inactive state, a second click issues nothing. -/
theorem loadingGuardBlocksSecondDispatch_witness :
    ({ recordingStatus := RecordingStatus.inactive, recordingLoading := true,
       micMuted := false, speakerMuted := false,
       position := { x := 0, y := 0 } } : ControlState).recordingLoading = true ∧
    stopStartButtonClick 0
      { recordingStatus := RecordingStatus.inactive, recordingLoading := true,
        micMuted := false, speakerMuted := false,
        position := { x := 0, y := 0 } } =
      ({ recordingStatus := RecordingStatus.inactive, recordingLoading := true,
         micMuted := false, speakerMuted := false,
         position := { x := 0, y := 0 } }, none) :=
  ⟨rfl, (loadingGuardBlocksSecondDispatch 0
    { recordingStatus := RecordingStatus.inactive, recordingLoading := true,
      micMuted := false, speakerMuted := false,
      position := { x := 0, y := 0 } } rfl).1⟩

/-- Claim C5: with the settings popover open, the overlay rectangle
published by the bounds computation is the min/max union of the
control-surface rectangle and the popover rectangle, and it therefore
fully contains both of them. -/
theorem overlayBoundsUnion (position : Position) (toolbarWidth toolbarHeight : Rat) :
    updateOverlayBoundsRect position toolbarWidth toolbarHeight true =
      unionRect (toolbarRectAt position toolbarWidth toolbarHeight) (popupRect position) ∧
    rectContains (updateOverlayBoundsRect position toolbarWidth toolbarHeight true)
      (toolbarRectAt position toolbarWidth toolbarHeight) ∧
    rectContains (updateOverlayBoundsRect position toolbarWidth toolbarHeight true)
      (popupRect position) := by
  have hu : updateOverlayBoundsRect position toolbarWidth toolbarHeight true =
      unionRect (toolbarRectAt position toolbarWidth toolbarHeight) (popupRect position) := by
    unfold updateOverlayBoundsRect unionRect toolbarRectAt popupRect overlayPopupTop
    simp
  refine ⟨hu, ?_, ?_⟩
  · rw [hu]; exact unionRect_contains_left _ _
  · rw [hu]; exact unionRect_contains_right _ _

/-- Claim C6: the popover anchor rule used by the rendering component and
the one recomputed inside the overlay-bounds computation agree: the top is
placed at y + 60 when y is below 250 and at y - 200 otherwise; y = 100
yields 160 and y = 800 yields 600, and the overlay rectangle top is the
min of the surface top and that same anchor. -/
theorem popoverAnchorRule (position : Position) (toolbarWidth toolbarHeight : Rat) :
    settingsPopupTop position = overlayPopupTop position ∧
    (position.y < 250 → settingsPopupTop position = position.y + 60) ∧
    (250 ≤ position.y → settingsPopupTop position = position.y - 200) ∧
    (updateOverlayBoundsRect position toolbarWidth toolbarHeight true).y =
      min position.y (settingsPopupTop position) ∧
    settingsPopupTop { x := 0, y := 100 } = 160 ∧
    settingsPopupTop { x := 0, y := 800 } = 600 := by
  refine ⟨rfl, ?_, ?_, ?_, ?_, ?_⟩
  · intro h; simp [settingsPopupTop, h]
  · intro h; simp [settingsPopupTop, not_lt.mpr h]
  · unfold updateOverlayBoundsRect settingsPopupTop
    simp
  · norm_num [settingsPopupTop]
  · norm_num [settingsPopupTop]

/-- Concrete instance of claim C6: at y = 100 the surface is near the top,
so the popover is anchored 60 pixels below, at 160. -/
theorem popoverAnchorRule_witness :
    ({ x := 0, y := 100 } : Position).y < 250 ∧
    settingsPopupTop { x := 0, y := 100 } =
      ({ x := 0, y := 100 } : Position).y + 60 :=
  ⟨by norm_num, (popoverAnchorRule { x := 0, y := 100 } 0 0).2.1 (by norm_num)⟩

/-- Claim C7 counterexample: with another command in flight (loading flag
true), a rejected `setMicMuted` leaves the loading flag true: the mute
handler does not clear it, contradicting the claim that every failing
command clears the loading flag. -/
theorem muteFailureLoading_counterexample :
    (toggleMicFailed
      { recordingStatus := RecordingStatus.running_active, recordingLoading := true,
        micMuted := false, speakerMuted := false,
        position := { x := 0, y := 0 } }).recordingLoading = true ∧
    ¬ ((toggleMicFailed
      { recordingStatus := RecordingStatus.running_active, recordingLoading := true,
        micMuted := false, speakerMuted := false,
        position := { x := 0, y := 0 } }).recordingLoading = false) := by
  exact ⟨rfl, by decide⟩

/-- Claim C7 (amended): when a session transition command
(start/stop/pause/resume) rejects, its handler logs, clears the loading
flag, and leaves status, mute flags and position at their prior values;
when a rejected mute command (`setMicMuted`/`setSpeakerMuted`) fails, its
handler logs and leaves the entire state unchanged, including the loading
flag, which those handlers never set; in particular a rejected
`pauseSession` from the running-active state leaves the status running
active with the loading flag false. -/
theorem commandFailureLeavesState (now : Nat) (s : ControlState) :
    toggleRecordingFailed now s = { s with recordingLoading := false } ∧
    pauseRecordingFailed s = { s with recordingLoading := false } ∧
    toggleMicFailed s = s ∧
    toggleSpeakerFailed s = s ∧
    (s.recordingStatus = RecordingStatus.running_active →
      (pauseRecordingFailed s).recordingStatus = RecordingStatus.running_active ∧
      (pauseRecordingFailed s).recordingLoading = false) := by
  have h1 : toggleRecordingFailed now s = { s with recordingLoading := false } := by
    cases hs : s.recordingStatus <;>
      simp [toggleRecordingFailed, toggleRecordingDispatch, commandSettled, hs]
  exact ⟨h1, rfl, rfl, rfl, fun h => ⟨h, rfl⟩⟩

/-- Concrete instance of the amended claim C7: a rejected pause from the
running-active state leaves the status running active and the loading
flag false. -/
theorem commandFailureLeavesState_witness :
    ({ recordingStatus := RecordingStatus.running_active, recordingLoading := false,
       micMuted := false, speakerMuted := false,
       position := { x := 0, y := 0 } } : ControlState).recordingStatus
      = RecordingStatus.running_active ∧
    (pauseRecordingFailed
      { recordingStatus := RecordingStatus.running_active, recordingLoading := false,
        micMuted := false, speakerMuted := false,
        position := { x := 0, y := 0 } }).recordingStatus
      = RecordingStatus.running_active ∧
    (pauseRecordingFailed
      { recordingStatus := RecordingStatus.running_active, recordingLoading := false,
        micMuted := false, speakerMuted := false,
        position := { x := 0, y := 0 } }).recordingLoading = false :=
  ⟨rfl,
   ((commandFailureLeavesState 0
     { recordingStatus := RecordingStatus.running_active, recordingLoading := false,
       micMuted := false, speakerMuted := false,
       position := { x := 0, y := 0 } }).2.2.2.2 rfl).1,
   ((commandFailureLeavesState 0
     { recordingStatus := RecordingStatus.running_active, recordingLoading := false,
       micMuted := false, speakerMuted := false,
       position := { x := 0, y := 0 } }).2.2.2.2 rfl).2⟩

/-- Claim C8: the mute broadcast handlers are total overwrites of the
corresponding boolean, so applying the same payload twice leaves the state
identical to the state after the first application, for both the
microphone and the speaker channel and in both component iterations (the
dedicated broadcast listeners and the sessionEvent mute payloads). -/
theorem muteBroadcastIdempotent (v : Bool) (s : ControlState) :
    applyMicBroadcast v (applyMicBroadcast v s) = applyMicBroadcast v s ∧
    applySpeakerBroadcast v (applySpeakerBroadcast v s) = applySpeakerBroadcast v s ∧
    onSessionEvent (SessionEventPayload.micMutedEvt v)
        (onSessionEvent (SessionEventPayload.micMutedEvt v) s) =
      onSessionEvent (SessionEventPayload.micMutedEvt v) s ∧
    onSessionEvent (SessionEventPayload.speakerMutedEvt v)
        (onSessionEvent (SessionEventPayload.speakerMutedEvt v) s) =
      onSessionEvent (SessionEventPayload.speakerMutedEvt v) s := by
  refine ⟨rfl, rfl, rfl, rfl⟩

/-- Claim C9: on a recovery-triggering event (focus regained, visibility
regained), if more than ten seconds passed since the last interaction the
supervisor first unregisters the overlay region and then schedules a
bounds republish after a delay; otherwise it only republishes bounds
without unregistering; in both branches the last-interaction timestamp is
refreshed to now. -/
theorem smartRecoveryPolicy (now lastInteraction : Int) :
    (now - lastInteraction > 10000 →
      smartRecovery now lastInteraction =
        ([RecoveryAction.removeFakeWindow controlWindowLabel,
          RecoveryAction.delayedBoundsUpdate 100], now)) ∧
    (¬ now - lastInteraction > 10000 →
      smartRecovery now lastInteraction = ([RecoveryAction.boundsUpdate], now)) ∧
    (smartRecovery now lastInteraction).2 = now ∧
    handleWindowFocus now lastInteraction = smartRecovery now lastInteraction ∧
    handleVisibilityChange false now lastInteraction =
      smartRecovery now lastInteraction := by
  by_cases h : now - lastInteraction > 10000 <;>
    simp [smartRecovery, handleWindowFocus, handleVisibilityChange, h]

/-- Concrete instance of claim C9: 20001 ms after the last interaction the
supervisor performs the full reset. -/
theorem smartRecoveryPolicy_witness :
    ((20001 : Int) - 0 > 10000) ∧
    smartRecovery 20001 0 =
      ([RecoveryAction.removeFakeWindow controlWindowLabel,
        RecoveryAction.delayedBoundsUpdate 100], 20001) :=
  ⟨by norm_num, (smartRecoveryPolicy 20001 0).1 (by norm_num)⟩

/-- Claim C10: the mount position initializer is total and uses the
persisted position exactly when it parses to a numeric pair inside
[0, width - 200] times [0, height - 100]; every absent, unparsable or
out-of-bounds persisted value falls back to the default centered position
((width - 200) / 2, (height - 200) / 2). -/
theorem initPositionSpec (windowWidth windowHeight px py : Rat) :
    initPosition windowWidth windowHeight SavedPosition.absent =
      defaultPosition windowWidth windowHeight ∧
    initPosition windowWidth windowHeight SavedPosition.notAPosition =
      defaultPosition windowWidth windowHeight ∧
    defaultPosition windowWidth windowHeight =
      { x := (windowWidth - 200) / 2, y := (windowHeight - 200) / 2 } ∧
    ((0 ≤ px ∧ px ≤ windowWidth - 200 ∧ 0 ≤ py ∧ py ≤ windowHeight - 100) →
      initPosition windowWidth windowHeight (SavedPosition.stored px py) =
        { x := px, y := py }) ∧
    (¬ (0 ≤ px ∧ px ≤ windowWidth - 200 ∧ 0 ≤ py ∧ py ≤ windowHeight - 100) →
      initPosition windowWidth windowHeight (SavedPosition.stored px py) =
        defaultPosition windowWidth windowHeight) := by
  refine ⟨rfl, rfl, rfl, ?_, ?_⟩ <;> intro h <;> simp [initPosition, h]

/-- Concrete instance of claim C10: the persisted position (100, 100) is
inside the bounds for a 1920 by 1080 screen and is used as is. -/
theorem initPositionSpec_witness :
    ((0 : Rat) ≤ 100 ∧ (100 : Rat) ≤ 1920 - 200 ∧ (0 : Rat) ≤ 100 ∧
      (100 : Rat) ≤ 1080 - 100) ∧
    initPosition 1920 1080 (SavedPosition.stored 100 100) = { x := 100, y := 100 } :=
  ⟨by norm_num,
   (initPositionSpec 1920 1080 100 100).2.2.2.1 (by norm_num)⟩

end Control
